import Mathlib

/-!
Shallow embedding of `src/code/python/model_psv_sdg_interface.py` and
`src/code/digitspan/full_download.py`.

Real (Python float) values are modelled by `PyFloat`: either a finite
rational or one of the IEEE special values NaN, +inf, -inf.  Comparisons
and arithmetic follow IEEE semantics (every comparison involving NaN is
false; inf - inf = NaN; ...).  NumPy arrays are modelled by `NDArray`:
a shape together with the flat (row-major) element list, with the
invariant that the data length is the product of the shape.  Exceptions
are modelled by `Except PyError`; `InputValidationError` is one
constructor of `PyError`, the built-in errors raised by `round` on
non-finite floats are the others.
-/

/-- A Python/NumPy floating-point value: finite values are modelled as
rationals; NaN and the two infinities are explicit constructors. -/
inductive PyFloat where
  | finite (q : ℚ)
  | nan
  | inf
  | negInf
deriving DecidableEq

namespace PyFloat

/-- IEEE `<` on floats: any comparison involving NaN is false. -/
def lt : PyFloat → PyFloat → Bool
  | finite a, finite b => decide (a < b)
  | finite _, inf => true
  | negInf, finite _ => true
  | negInf, inf => true
  | _, _ => false

/-- IEEE `≤` on floats: any comparison involving NaN is false. -/
def le : PyFloat → PyFloat → Bool
  | finite a, finite b => decide (a ≤ b)
  | finite _, inf => true
  | negInf, finite _ => true
  | negInf, inf => true
  | negInf, negInf => true
  | inf, inf => true
  | _, _ => false

/-- IEEE subtraction: `inf - inf` and `-inf - -inf` give NaN, NaN is
absorbing, and an infinity dominates a finite operand. -/
def sub : PyFloat → PyFloat → PyFloat
  | finite a, finite b => finite (a - b)
  | finite _, inf => negInf
  | finite _, negInf => inf
  | inf, finite _ => inf
  | inf, negInf => inf
  | negInf, finite _ => negInf
  | negInf, inf => negInf
  | _, _ => nan

/-- IEEE multiplication: NaN is absorbing and `0 * ±inf = NaN`. -/
def mul : PyFloat → PyFloat → PyFloat
  | finite a, finite b => finite (a * b)
  | finite a, inf => if 0 < a then inf else if a < 0 then negInf else nan
  | finite a, negInf => if 0 < a then negInf else if a < 0 then inf else nan
  | inf, finite b => if 0 < b then inf else if b < 0 then negInf else nan
  | negInf, finite b => if 0 < b then negInf else if b < 0 then inf else nan
  | inf, inf => inf
  | inf, negInf => negInf
  | negInf, inf => negInf
  | negInf, negInf => inf
  | _, _ => nan

/-- The predicate behind `np.isfinite`. -/
def isFinite : PyFloat → Bool
  | finite _ => true
  | _ => false

end PyFloat

/-- A NumPy array: its shape and its elements flattened in row-major
order.  `hlen` is the NumPy invariant `arr.size == prod(arr.shape)`. -/
structure NDArray where
  shape : List Nat
  data : List PyFloat
  hlen : data.length = shape.prod

/-- NumPy `arr.size` (total number of elements). -/
def NDArray.size (a : NDArray) : Nat := a.data.length

/-- NumPy `arr.ndim` (number of axes). -/
def NDArray.ndim (a : NDArray) : Nat := a.shape.length

/-- Exceptions that the validator can raise.  `inputValidation` is the
module's `InputValidationError`; `valueError` and `overflowError` are
the built-in errors raised by `round(nan)` and `round(inf)`. -/
inductive PyError where
  | inputValidation (msg : String)
  | valueError (msg : String)
  | overflowError (msg : String)
deriving DecidableEq

/-- Consecutive differences of a 1-D array, `np.diff(x)`:
element `i` is `x[i+1] - x[i]`. -/
def pyDiff (l : List PyFloat) : List PyFloat :=
  List.zipWith PyFloat.sub l.tail l

/-- Source `_is_strictly_increasing` on a 1-D array:
`np.all(np.diff(x) > 0)` (every consecutive difference is positive;
trivially true for arrays of length at most one). -/
def is_strictly_increasing (l : List PyFloat) : Bool :=
  (pyDiff l).all (fun d => PyFloat.lt (PyFloat.finite 0) d)

/-- Normalize a Python slice bound to an absolute index in `[0, len]`:
negative bounds count from the end, and bounds are clamped. -/
def pyIdx (len : Nat) (i : ℤ) : Nat :=
  if i < 0 then ((len : ℤ) + i).toNat else min i.toNat len

/-- Python slice `l[a : b]` (step 1). -/
def pySlice (l : List PyFloat) (a b : ℤ) : List PyFloat :=
  (l.take (pyIdx l.length b)).drop (pyIdx l.length a)

/-- Round half to even on a rational, the semantics of Python's built-in
`round` on a finite float. -/
def roundHalfEven (q : ℚ) : ℤ :=
  if q - ⌊q⌋ < 1/2 then ⌊q⌋
  else if 1/2 < q - ⌊q⌋ then ⌊q⌋ + 1
  else if ⌊q⌋ % 2 = 0 then ⌊q⌋ else ⌊q⌋ + 1

/-- Python `int(round(x))` on a float: rounds a finite value half to
even; raises `ValueError` on NaN and `OverflowError` on an infinity. -/
def pyIntRound : PyFloat → Except PyError ℤ
  | PyFloat.finite q => Except.ok (roundHalfEven q)
  | PyFloat.nan => Except.error (PyError.valueError "cannot convert float NaN to integer")
  | _ => Except.error (PyError.overflowError "cannot convert float infinity to integer")

/-- The dataclass `ModelInputs`.  `Fs` and `wind` are float scalars, so
the `np.isscalar` test of the source is always true in this model; the
six array fields are ndarrays, so the `isinstance(arr, np.ndarray)` test
of the source is always true in this model. -/
structure ModelInputs where
  EEG_comp : NDArray
  IBI : NDArray
  t_IBI : NDArray
  CSI : NDArray
  CVI : NDArray
  Fs : PyFloat
  time : NDArray
  wind : PyFloat

/-- One iteration of the source's per-array loop: the array must be
non-empty and all of its elements finite. -/
def checkArray (name : String) (arr : NDArray) : Except PyError Unit :=
  if arr.size = 0 then Except.error (PyError.inputValidation (name ++ " must be non-empty"))
  else if !(arr.data.all PyFloat.isFinite) then
    Except.error (PyError.inputValidation (name ++ " contains NaN or Inf"))
  else Except.ok ()

/-- The time dimension `T`, i.e. `mi.EEG_comp.shape[1]` (the source
reads it after checking `EEG_comp.ndim == 2`). -/
def timeDim (mi : ModelInputs) : Nat := mi.EEG_comp.shape.getD 1 0

/-- The `Fs` and `wind` checks of `validate_inputs` (`np.isscalar` is
always true for a float scalar, so only the sign tests remain). -/
def checkScalars (mi : ModelInputs) : Except PyError Unit :=
  if mi.Fs.le (PyFloat.finite 0) then
    Except.error (PyError.inputValidation "Fs must be a positive scalar")
  else if mi.wind.le (PyFloat.finite 0) then
    Except.error (PyError.inputValidation "wind must be a positive scalar (seconds)")
  else Except.ok ()

/-- The shape checks of `validate_inputs`, in source order. -/
def checkShapes (mi : ModelInputs) : Except PyError Unit :=
  if mi.EEG_comp.ndim ≠ 2 then
    Except.error (PyError.inputValidation "EEG_comp must have shape (n_channels, T)")
  else if mi.CSI.ndim ≠ 1 ∨ mi.CSI.shape.getD 0 0 ≠ timeDim mi then
    Except.error (PyError.inputValidation "CSI must be 1D with length T (columns of EEG_comp)")
  else if mi.CVI.ndim ≠ 1 ∨ mi.CVI.shape.getD 0 0 ≠ timeDim mi then
    Except.error (PyError.inputValidation "CVI must be 1D with length T (columns of EEG_comp)")
  else if mi.time.ndim ≠ 1 ∨ mi.time.shape.getD 0 0 ≠ timeDim mi then
    Except.error (PyError.inputValidation "time must be 1D with length T (columns of EEG_comp)")
  else if mi.IBI.ndim ≠ 1 ∨ mi.t_IBI.ndim ≠ 1 ∨ mi.IBI.shape.getD 0 0 ≠ mi.t_IBI.shape.getD 0 0 then
    Except.error (PyError.inputValidation "IBI and t_IBI must be 1D with the same length")
  else Except.ok ()

/-- The two monotonicity checks of `validate_inputs`. -/
def checkMono (mi : ModelInputs) : Except PyError Unit :=
  if !(is_strictly_increasing mi.time.data) then
    Except.error (PyError.inputValidation "time must be strictly increasing")
  else if !(is_strictly_increasing mi.t_IBI.data) then
    Except.error (PyError.inputValidation "t_IBI must be strictly increasing")
  else Except.ok ()

/-- The `IBI` positivity check of `validate_inputs`:
`np.any(mi.IBI <= 0)`. -/
def checkIBIpos (mi : ModelInputs) : Except PyError Unit :=
  if mi.IBI.data.any (fun v => v.le (PyFloat.finite 0)) then
    Except.error (PyError.inputValidation "IBI must be strictly positive (seconds)")
  else Except.ok ()

/-- The derived-window-size checks of `validate_inputs`:
`Ws = int(round(wind * Fs))` (whose error on a non-finite product
propagates), then `Ws <= 0` and `T <= 2 * Ws`. -/
def checkWindow (mi : ModelInputs) : Except PyError Unit :=
  match pyIntRound (mi.wind.mul mi.Fs) with
  | Except.error e => Except.error e
  | Except.ok Ws =>
    if Ws ≤ 0 then
      Except.error (PyError.inputValidation "wind * Fs must be >= 1 sample")
    else if (timeDim mi : ℤ) ≤ 2 * Ws then
      Except.error (PyError.inputValidation
        "T must be greater than 2 * int(wind * Fs) for non-empty outputs")
    else Except.ok ()

/-- Everything in `validate_inputs` after the per-array loop, in source
order. -/
def validate_rest (mi : ModelInputs) : Except PyError Unit :=
  match checkScalars mi with
  | Except.error e => Except.error e
  | Except.ok _ =>
  match checkShapes mi with
  | Except.error e => Except.error e
  | Except.ok _ =>
  match checkMono mi with
  | Except.error e => Except.error e
  | Except.ok _ =>
  match checkIBIpos mi with
  | Except.error e => Except.error e
  | Except.ok _ => checkWindow mi

/-- Source `validate_inputs`: the per-array loop over
`EEG_comp, IBI, t_IBI, CSI, CVI, time` (in the insertion order of the
source's dict), then the remaining checks. -/
def validate_inputs (mi : ModelInputs) : Except PyError Unit :=
  match checkArray "EEG_comp" mi.EEG_comp with
  | Except.error e => Except.error e
  | Except.ok _ =>
  match checkArray "IBI" mi.IBI with
  | Except.error e => Except.error e
  | Except.ok _ =>
  match checkArray "t_IBI" mi.t_IBI with
  | Except.error e => Except.error e
  | Except.ok _ =>
  match checkArray "CSI" mi.CSI with
  | Except.error e => Except.error e
  | Except.ok _ =>
  match checkArray "CVI" mi.CVI with
  | Except.error e => Except.error e
  | Except.ok _ =>
  match checkArray "time" mi.time with
  | Except.error e => Except.error e
  | Except.ok _ => validate_rest mi

/-- State-passing form of a call to `validate_inputs`: the result
together with the final state of the argument.  Every operation the
source performs on `mi` is a read (`np.all`, `np.isfinite`, `np.diff`,
comparisons and shape accesses all allocate fresh results); no statement
assigns to `mi`, to a field of `mi`, or into an array in place, so the
final state of the argument is the argument itself. -/
def validate_inputs_call (mi : ModelInputs) : Except PyError Unit × ModelInputs :=
  (validate_inputs mi, mi)

/-- Source `output_time_axes`: recomputes `Ws = int(round(wind * Fs))`
and slices the time vector; the slicing itself cannot fail, but the
`round` call propagates its error on a non-finite `wind * Fs`. -/
def output_time_axes (mi : ModelInputs) : Except PyError (List PyFloat × List PyFloat) :=
  match pyIntRound (mi.wind.mul mi.Fs) with
  | Except.error e => Except.error e
  | Except.ok Ws =>
    Except.ok (pySlice mi.time.data 0 ((timeDim mi : ℤ) - Ws),
               pySlice mi.time.data Ws ((timeDim mi : ℤ) - Ws))

/-!  Embedding of `src/code/digitspan/full_download.py`. -/

/-- Subjects with no EEG data: `range(13, 32)` together with 37 and 66. -/
def missing_eeg : List Nat := List.range' 13 19 ++ [37, 66]

/-- Subjects with no ECG and PPG data. -/
def missing_ecg : List Nat := [17, 37, 66]

/-- Subjects with no pupillometry data. -/
def missing_pupil : List Nat := [17, 94]

/-- The union of the three exclusion sets (as a membership list). -/
def excluded_ids : List Nat := missing_eeg ++ missing_ecg ++ missing_pupil

/-- Source `sorted(list(all_ids - excluded_ids))` with
`all_ids = set(range(13, 99))`: filtering the already-sorted range
`13..98` by non-membership in the exclusion set yields exactly the
sorted list of the set difference. -/
def valid_ids : List Nat :=
  (List.range' 13 86).filter (fun x => !(excluded_ids.contains x))

/-- Python format `f"sub-{x:03d}"` without the prefix: decimal digits
zero-padded on the left to width 3. -/
def pad3 (n : Nat) : String :=
  let s := toString n
  if s.length < 3 then String.mk (List.replicate (3 - s.length) '0') ++ s else s

/-- Source `get_complete_subjects`. -/
def get_complete_subjects : List String :=
  valid_ids.map (fun x => "sub-" ++ pad3 x)

/-!  Characterizations of the validator's checks. -/

/-- Bundle: the per-array loop accepts all six arrays. -/
def arraysPass (mi : ModelInputs) : Prop :=
  checkArray "EEG_comp" mi.EEG_comp = Except.ok () ∧
  checkArray "IBI" mi.IBI = Except.ok () ∧
  checkArray "t_IBI" mi.t_IBI = Except.ok () ∧
  checkArray "CSI" mi.CSI = Except.ok () ∧
  checkArray "CVI" mi.CVI = Except.ok () ∧
  checkArray "time" mi.time = Except.ok ()

/-- Bundle: the `Fs` and `wind` scalar checks pass. -/
def scalarsPass (mi : ModelInputs) : Prop :=
  mi.Fs.le (PyFloat.finite 0) = false ∧ mi.wind.le (PyFloat.finite 0) = false

/-- Bundle: the shape checks pass. -/
def shapesPass (mi : ModelInputs) : Prop :=
  mi.EEG_comp.ndim = 2 ∧
  (mi.CSI.ndim = 1 ∧ mi.CSI.shape.getD 0 0 = timeDim mi) ∧
  (mi.CVI.ndim = 1 ∧ mi.CVI.shape.getD 0 0 = timeDim mi) ∧
  (mi.time.ndim = 1 ∧ mi.time.shape.getD 0 0 = timeDim mi) ∧
  (mi.IBI.ndim = 1 ∧ mi.t_IBI.ndim = 1 ∧ mi.IBI.shape.getD 0 0 = mi.t_IBI.shape.getD 0 0)

/-- Bundle: the two monotonicity checks pass. -/
def monoPass (mi : ModelInputs) : Prop :=
  is_strictly_increasing mi.time.data = true ∧
  is_strictly_increasing mi.t_IBI.data = true

/-- Bundle: the `IBI` positivity check passes. -/
def ibiPositivePass (mi : ModelInputs) : Prop :=
  mi.IBI.data.any (fun v => v.le (PyFloat.finite 0)) = false

theorem checkArray_ok_iff (name : String) (a : NDArray) :
    checkArray name a = Except.ok () ↔
      (a.size ≠ 0 ∧ a.data.all PyFloat.isFinite = true) := by
  unfold checkArray
  repeat' split
  all_goals simp_all

theorem checkArray_error_shape (name : String) (a : NDArray) (e : PyError)
    (h : checkArray name a = Except.error e) : ∃ msg, e = PyError.inputValidation msg := by
  unfold checkArray at h
  repeat' split at h
  all_goals simp_all
  all_goals exact ⟨_, h.symm⟩

theorem checkScalars_ok_iff (mi : ModelInputs) :
    checkScalars mi = Except.ok () ↔ scalarsPass mi := by
  unfold checkScalars scalarsPass
  repeat' split
  all_goals simp_all

theorem checkShapes_ok_iff (mi : ModelInputs) :
    checkShapes mi = Except.ok () ↔ shapesPass mi := by
  unfold checkShapes shapesPass
  repeat' split
  all_goals simp_all
  all_goals tauto

theorem checkMono_ok_iff (mi : ModelInputs) :
    checkMono mi = Except.ok () ↔ monoPass mi := by
  unfold checkMono monoPass
  repeat' split
  all_goals simp_all

theorem checkIBIpos_ok_iff (mi : ModelInputs) :
    checkIBIpos mi = Except.ok () ↔ ibiPositivePass mi := by
  unfold checkIBIpos ibiPositivePass
  repeat' split
  all_goals simp_all

theorem checkWindow_ok_iff (mi : ModelInputs) :
    checkWindow mi = Except.ok () ↔
      ∃ Ws : ℤ, pyIntRound (mi.wind.mul mi.Fs) = Except.ok Ws ∧
        0 < Ws ∧ 2 * Ws < (timeDim mi : ℤ) := by
  unfold checkWindow
  repeat' split
  all_goals simp_all

theorem validate_rest_ok_iff (mi : ModelInputs) :
    validate_rest mi = Except.ok () ↔
      (checkScalars mi = Except.ok () ∧ checkShapes mi = Except.ok () ∧
       checkMono mi = Except.ok () ∧ checkIBIpos mi = Except.ok () ∧
       checkWindow mi = Except.ok ()) := by
  unfold validate_rest
  repeat' split
  all_goals simp_all

theorem validate_inputs_ok_iff (mi : ModelInputs) :
    validate_inputs mi = Except.ok () ↔
      (arraysPass mi ∧ validate_rest mi = Except.ok ()) := by
  unfold validate_inputs arraysPass
  repeat' split
  all_goals simp_all

theorem validate_inputs_eq_rest (mi : ModelInputs) (h : arraysPass mi) :
    validate_inputs mi = validate_rest mi := by
  obtain ⟨h1, h2, h3, h4, h5, h6⟩ := h
  unfold validate_inputs
  rw [h1, h2, h3, h4, h5, h6]

theorem checkScalars_error_shape (mi : ModelInputs) (e : PyError)
    (h : checkScalars mi = Except.error e) : ∃ msg, e = PyError.inputValidation msg := by
  unfold checkScalars at h
  repeat' split at h
  all_goals simp_all
  all_goals exact ⟨_, h.symm⟩

theorem checkShapes_error_shape (mi : ModelInputs) (e : PyError)
    (h : checkShapes mi = Except.error e) : ∃ msg, e = PyError.inputValidation msg := by
  unfold checkShapes at h
  repeat' split at h
  all_goals simp_all
  all_goals exact ⟨_, h.symm⟩

theorem checkMono_error_shape (mi : ModelInputs) (e : PyError)
    (h : checkMono mi = Except.error e) : ∃ msg, e = PyError.inputValidation msg := by
  unfold checkMono at h
  repeat' split at h
  all_goals simp_all
  all_goals exact ⟨_, h.symm⟩

theorem checkIBIpos_error_shape (mi : ModelInputs) (e : PyError)
    (h : checkIBIpos mi = Except.error e) : ∃ msg, e = PyError.inputValidation msg := by
  unfold checkIBIpos at h
  repeat' split at h
  all_goals simp_all
  all_goals exact ⟨_, h.symm⟩

/-!  Facts about `is_strictly_increasing` and slicing. -/

theorem is_strictly_increasing_cons_cons (a b : PyFloat) (t : List PyFloat) :
    is_strictly_increasing (a :: b :: t) =
      (PyFloat.lt (PyFloat.finite 0) (PyFloat.sub b a) && is_strictly_increasing (b :: t)) := by
  simp [is_strictly_increasing, pyDiff]

theorem is_strictly_increasing_tail (a : PyFloat) (t : List PyFloat)
    (h : is_strictly_increasing (a :: t) = true) : is_strictly_increasing t = true := by
  cases t with
  | nil => rfl
  | cons b t' =>
    rw [is_strictly_increasing_cons_cons, Bool.and_eq_true] at h
    exact h.2

theorem is_strictly_increasing_take (l : List PyFloat) :
    ∀ n : Nat, is_strictly_increasing l = true →
      is_strictly_increasing (l.take n) = true := by
  induction l with
  | nil => intro n _; rw [List.take_nil]; rfl
  | cons a t ih =>
    intro n h
    cases n with
    | zero => rfl
    | succ m =>
      rw [List.take_succ_cons]
      cases t with
      | nil => simp [List.take_nil, is_strictly_increasing, pyDiff]
      | cons b t' =>
        cases m with
        | zero => simp [is_strictly_increasing, pyDiff]
        | succ k =>
          rw [List.take_succ_cons]
          rw [is_strictly_increasing_cons_cons, Bool.and_eq_true] at h ⊢
          refine ⟨h.1, ?_⟩
          have := ih (k + 1) h.2
          rw [List.take_succ_cons] at this
          exact this

theorem is_strictly_increasing_drop (l : List PyFloat) :
    ∀ n : Nat, is_strictly_increasing l = true →
      is_strictly_increasing (l.drop n) = true := by
  induction l with
  | nil => intro n _; rw [List.drop_nil]; rfl
  | cons a t ih =>
    intro n h
    cases n with
    | zero => exact h
    | succ m =>
      rw [List.drop_succ_cons]
      exact ih m (is_strictly_increasing_tail a t h)

theorem NDArray.data_length_of_ndim_one (a : NDArray) (h : a.ndim = 1) :
    a.data.length = a.shape.getD 0 0 := by
  rcases a with ⟨shape, data, hlen⟩
  cases shape with
  | nil => simp [NDArray.ndim] at h
  | cons n rest =>
    cases rest with
    | nil => simpa using hlen
    | cons m rest' => simp [NDArray.ndim] at h

theorem pyIdx_of_nonneg (len : Nat) (i : ℤ) (h0 : 0 ≤ i) (h1 : i ≤ (len : ℤ)) :
    pyIdx len i = i.toNat := by
  unfold pyIdx
  rw [if_neg (by omega)]
  omega

theorem pySlice_eq_take_drop (l : List PyFloat) (a b : ℤ)
    (ha0 : 0 ≤ a) (hal : a ≤ (l.length : ℤ)) (hb0 : 0 ≤ b) (hbl : b ≤ (l.length : ℤ)) :
    pySlice l a b = (l.take b.toNat).drop a.toNat := by
  unfold pySlice
  rw [pyIdx_of_nonneg _ _ ha0 hal, pyIdx_of_nonneg _ _ hb0 hbl]

/-- Everything a successful validation gives about the output axes: the
derived window size, its bounds, the time-vector length, its
monotonicity, and the computed value of `output_time_axes`. -/
theorem validate_ok_facts (mi : ModelInputs) (h : validate_inputs mi = Except.ok ()) :
    ∃ Ws : ℕ, pyIntRound (mi.wind.mul mi.Fs) = Except.ok (Ws : ℤ) ∧
      0 < Ws ∧ 2 * Ws < timeDim mi ∧
      mi.time.data.length = timeDim mi ∧
      is_strictly_increasing mi.time.data = true ∧
      output_time_axes mi = Except.ok (mi.time.data.take (timeDim mi - Ws),
        (mi.time.data.take (timeDim mi - Ws)).drop Ws) := by
  rw [validate_inputs_ok_iff] at h
  obtain ⟨hA, hrest⟩ := h
  rw [validate_rest_ok_iff] at hrest
  obtain ⟨hsc, hsh, hm, hp, hw⟩ := hrest
  rw [checkShapes_ok_iff] at hsh
  rw [checkMono_ok_iff] at hm
  rw [checkWindow_ok_iff] at hw
  obtain ⟨Wz, hWz, hWz0, hWzT⟩ := hw
  unfold shapesPass at hsh
  obtain ⟨hEEG, hCSI, hCVI, htime, hIBIt⟩ := hsh
  unfold monoPass at hm
  have hlen : mi.time.data.length = timeDim mi := by
    rw [NDArray.data_length_of_ndim_one mi.time htime.1, htime.2]
  have hcast : ((Wz.toNat : ℤ)) = Wz := Int.toNat_of_nonneg (by omega)
  refine ⟨Wz.toNat, by rw [hcast]; exact hWz, by omega, by omega, hlen, hm.1, ?_⟩
  unfold output_time_axes
  simp only [hWz]
  rw [pySlice_eq_take_drop mi.time.data 0 ((timeDim mi : ℤ) - Wz) (by omega)
        (by omega) (by omega) (by omega),
      pySlice_eq_take_drop mi.time.data Wz ((timeDim mi : ℤ) - Wz) (by omega)
        (by omega) (by omega) (by omega)]
  have e1 : ((timeDim mi : ℤ) - Wz).toNat = timeDim mi - Wz.toNat := by omega
  have e2 : ((0 : ℤ)).toNat = 0 := rfl
  rw [e1, e2, List.drop_zero]

/-- A strictly positive float is not `≤ 0` in the IEEE order. -/
theorem PyFloat.le_zero_false_of_pos (x : PyFloat)
    (h : PyFloat.lt (PyFloat.finite 0) x = true) :
    PyFloat.le x (PyFloat.finite 0) = false := by
  cases x with
  | finite a =>
    simp only [PyFloat.lt, decide_eq_true_eq] at h
    simp only [PyFloat.le, decide_eq_false_iff_not, not_le]
    exact h
  | nan => simp [PyFloat.lt] at h
  | inf => rfl
  | negInf => simp [PyFloat.lt] at h

/-- The failure condition of the per-array loop: the array is empty or
contains a non-finite (NaN or infinite) value. -/
def arrayBad (a : NDArray) : Prop :=
  a.size = 0 ∨ ∃ x ∈ a.data, x.isFinite = false

theorem checkArray_ok_no_bad (name : String) (a : NDArray)
    (hok : checkArray name a = Except.ok ()) (hb : arrayBad a) : False := by
  rw [checkArray_ok_iff] at hok
  rcases hb with hb | ⟨x, hx, hxf⟩
  · exact hok.1 hb
  · have := (List.all_eq_true.mp hok.2) x hx
    rw [hxf] at this
    exact Bool.false_ne_true this

/-- Boolean strict chain for a binary boolean relation. -/
def chainRelBool (r : α → α → Bool) : List α → Bool
  | [] => true
  | [_] => true
  | a :: b :: t => r a b && chainRelBool r (b :: t)

theorem chainRelBool_chain' (r : α → α → Bool) :
    ∀ l : List α, chainRelBool r l = true → List.Chain' (fun a b => r a b = true) l := by
  intro l
  induction l with
  | nil => intro _; exact List.chain'_nil
  | cons a t ih =>
    intro h
    cases t with
    | nil => simp
    | cons b t' =>
      unfold chainRelBool at h
      rw [Bool.and_eq_true] at h
      exact List.Chain'.cons h.1 (ih h.2)

theorem validate_rest_eq_checkWindow (mi : ModelInputs)
    (h1 : checkScalars mi = Except.ok ()) (h2 : checkShapes mi = Except.ok ())
    (h3 : checkMono mi = Except.ok ()) (h4 : checkIBIpos mi = Except.ok ()) :
    validate_rest mi = checkWindow mi := by
  unfold validate_rest
  simp only [h1, h2, h3, h4]

/-!  Claim theorems. -/

/-- C2: for every input that passes the array, scalar, shape,
monotonicity and positivity checks and whose window product
`wind * Fs` rounds to the integer `Ws`, `validate_inputs` raises
`InputValidationError` whenever `Ws < 1` or `T ≤ 2 * Ws`, and returns
without raising otherwise. -/
theorem validate_inputs_window_threshold (mi : ModelInputs) (Ws : ℤ)
    (hA : arraysPass mi) (hs : scalarsPass mi) (hsh : shapesPass mi)
    (hm : monoPass mi) (hp : ibiPositivePass mi)
    (hWs : pyIntRound (mi.wind.mul mi.Fs) = Except.ok Ws) :
    ((Ws < 1 ∨ (timeDim mi : ℤ) ≤ 2 * Ws) →
        ∃ msg, validate_inputs mi = Except.error (PyError.inputValidation msg)) ∧
    (¬(Ws < 1 ∨ (timeDim mi : ℤ) ≤ 2 * Ws) → validate_inputs mi = Except.ok ()) := by
  have heq : validate_inputs mi = checkWindow mi := by
    rw [validate_inputs_eq_rest mi hA]
    exact validate_rest_eq_checkWindow mi ((checkScalars_ok_iff mi).mpr hs)
      ((checkShapes_ok_iff mi).mpr hsh) ((checkMono_ok_iff mi).mpr hm)
      ((checkIBIpos_ok_iff mi).mpr hp)
  rw [heq]
  unfold checkWindow
  constructor
  · intro hcond
    simp only [hWs]
    by_cases h1 : Ws ≤ 0
    · rw [if_pos h1]; exact ⟨_, rfl⟩
    · rw [if_neg h1, if_pos (by omega)]; exact ⟨_, rfl⟩
  · intro hcond
    push_neg at hcond
    simp only [hWs]
    rw [if_neg (by omega), if_neg (by omega)]

/-- C4: if any of the six arrays is empty or contains a non-finite
value, `validate_inputs` raises `InputValidationError`. -/
theorem validate_inputs_rejects_bad_arrays (mi : ModelInputs)
    (hbad : arrayBad mi.EEG_comp ∨ arrayBad mi.IBI ∨ arrayBad mi.t_IBI ∨
            arrayBad mi.CSI ∨ arrayBad mi.CVI ∨ arrayBad mi.time) :
    ∃ msg, validate_inputs mi = Except.error (PyError.inputValidation msg) := by
  unfold validate_inputs
  cases h1 : checkArray "EEG_comp" mi.EEG_comp with
  | error e => obtain ⟨msg, hmsg⟩ := checkArray_error_shape _ _ _ h1; exact ⟨msg, by rw [hmsg]⟩
  | ok _ =>
  cases h2 : checkArray "IBI" mi.IBI with
  | error e => obtain ⟨msg, hmsg⟩ := checkArray_error_shape _ _ _ h2; exact ⟨msg, by rw [hmsg]⟩
  | ok _ =>
  cases h3 : checkArray "t_IBI" mi.t_IBI with
  | error e => obtain ⟨msg, hmsg⟩ := checkArray_error_shape _ _ _ h3; exact ⟨msg, by rw [hmsg]⟩
  | ok _ =>
  cases h4 : checkArray "CSI" mi.CSI with
  | error e => obtain ⟨msg, hmsg⟩ := checkArray_error_shape _ _ _ h4; exact ⟨msg, by rw [hmsg]⟩
  | ok _ =>
  cases h5 : checkArray "CVI" mi.CVI with
  | error e => obtain ⟨msg, hmsg⟩ := checkArray_error_shape _ _ _ h5; exact ⟨msg, by rw [hmsg]⟩
  | ok _ =>
  cases h6 : checkArray "time" mi.time with
  | error e => obtain ⟨msg, hmsg⟩ := checkArray_error_shape _ _ _ h6; exact ⟨msg, by rw [hmsg]⟩
  | ok _ =>
    exfalso
    rcases hbad with hb | hb | hb | hb | hb | hb
    · exact checkArray_ok_no_bad _ _ h1 hb
    · exact checkArray_ok_no_bad _ _ h2 hb
    · exact checkArray_ok_no_bad _ _ h3 hb
    · exact checkArray_ok_no_bad _ _ h4 hb
    · exact checkArray_ok_no_bad _ _ h5 hb
    · exact checkArray_ok_no_bad _ _ h6 hb

/-- C3: for inputs with non-empty, finite arrays of the required ranks
and consistent lengths, `validate_inputs` raises
`InputValidationError` if `time` or `t_IBI` is not strictly increasing
(strictly increasing meaning every consecutive difference is
positive). -/
theorem validate_inputs_mono_error (mi : ModelInputs)
    (hA : arraysPass mi) (hsh : shapesPass mi)
    (hbad : is_strictly_increasing mi.time.data = false ∨
            is_strictly_increasing mi.t_IBI.data = false) :
    ∃ msg, validate_inputs mi = Except.error (PyError.inputValidation msg) := by
  rw [validate_inputs_eq_rest mi hA]
  unfold validate_rest
  cases hsc : checkScalars mi with
  | error e => obtain ⟨msg, hmsg⟩ := checkScalars_error_shape _ _ hsc; exact ⟨msg, by rw [hmsg]⟩
  | ok _ =>
    have hshok : checkShapes mi = Except.ok () := (checkShapes_ok_iff mi).mpr hsh
    rw [hshok]
    cases hmono : checkMono mi with
    | error e => obtain ⟨msg, hmsg⟩ := checkMono_error_shape _ _ hmono; exact ⟨msg, by rw [hmsg]⟩
    | ok _ =>
      exfalso
      have hm := (checkMono_ok_iff mi).mp hmono
      unfold monoPass at hm
      rcases hbad with hb | hb
      · rw [hb] at hm; exact Bool.false_ne_true hm.1
      · rw [hb] at hm; exact Bool.false_ne_true hm.2

/-- C5: for inputs with non-empty, finite arrays and strictly positive
scalars `Fs` and `wind`, `validate_inputs` raises
`InputValidationError` if `EEG_comp` is not `2`-dimensional, or `CSI`,
`CVI` or `time` is not `1`-dimensional of length `T`, or `IBI` and
`t_IBI` are not both `1`-dimensional of equal length. -/
theorem validate_inputs_shape_error (mi : ModelInputs)
    (hA : arraysPass mi)
    (hFs : PyFloat.lt (PyFloat.finite 0) mi.Fs = true)
    (hwind : PyFloat.lt (PyFloat.finite 0) mi.wind = true)
    (hbad : mi.EEG_comp.ndim ≠ 2 ∨
            (mi.CSI.ndim ≠ 1 ∨ mi.CSI.shape.getD 0 0 ≠ timeDim mi) ∨
            (mi.CVI.ndim ≠ 1 ∨ mi.CVI.shape.getD 0 0 ≠ timeDim mi) ∨
            (mi.time.ndim ≠ 1 ∨ mi.time.shape.getD 0 0 ≠ timeDim mi) ∨
            (mi.IBI.ndim ≠ 1 ∨ mi.t_IBI.ndim ≠ 1 ∨
              mi.IBI.shape.getD 0 0 ≠ mi.t_IBI.shape.getD 0 0)) :
    ∃ msg, validate_inputs mi = Except.error (PyError.inputValidation msg) := by
  rw [validate_inputs_eq_rest mi hA]
  unfold validate_rest
  have hsok : checkScalars mi = Except.ok () := by
    rw [checkScalars_ok_iff]
    exact ⟨PyFloat.le_zero_false_of_pos _ hFs, PyFloat.le_zero_false_of_pos _ hwind⟩
  rw [hsok]
  cases hsh : checkShapes mi with
  | error e => obtain ⟨msg, hmsg⟩ := checkShapes_error_shape _ _ hsh; exact ⟨msg, by rw [hmsg]⟩
  | ok _ =>
    exfalso
    have hv := (checkShapes_ok_iff mi).mp hsh
    unfold shapesPass at hv
    tauto

/-- C6: for inputs that pass the array, scalar, shape and monotonicity
checks, `validate_inputs` raises `InputValidationError` (with the IBI
positivity message) if some element of `IBI` is `≤ 0`. -/
theorem validate_inputs_ibi_error (mi : ModelInputs)
    (hA : arraysPass mi) (hs : scalarsPass mi) (hsh : shapesPass mi) (hm : monoPass mi)
    (hbad : mi.IBI.data.any (fun v => v.le (PyFloat.finite 0)) = true) :
    validate_inputs mi = Except.error
      (PyError.inputValidation "IBI must be strictly positive (seconds)") := by
  rw [validate_inputs_eq_rest mi hA]
  unfold validate_rest
  have hpos : checkIBIpos mi = Except.error
      (PyError.inputValidation "IBI must be strictly positive (seconds)") := by
    unfold checkIBIpos
    rw [if_pos hbad]
  simp only [(checkScalars_ok_iff mi).mpr hs, (checkShapes_ok_iff mi).mpr hsh,
    (checkMono_ok_iff mi).mpr hm, hpos]

/-- C9: the call does not modify its argument: in the state-passing
model of a call to `validate_inputs`, all eight fields of the argument
are unchanged whatever the outcome, and the first component is the
returned (or raised) outcome itself. -/
theorem validate_inputs_call_preserves_argument (mi : ModelInputs) :
    (validate_inputs_call mi).2.EEG_comp = mi.EEG_comp ∧
    (validate_inputs_call mi).2.IBI = mi.IBI ∧
    (validate_inputs_call mi).2.t_IBI = mi.t_IBI ∧
    (validate_inputs_call mi).2.CSI = mi.CSI ∧
    (validate_inputs_call mi).2.CVI = mi.CVI ∧
    (validate_inputs_call mi).2.Fs = mi.Fs ∧
    (validate_inputs_call mi).2.time = mi.time ∧
    (validate_inputs_call mi).2.wind = mi.wind ∧
    (validate_inputs_call mi).1 = validate_inputs mi :=
  ⟨rfl, rfl, rfl, rfl, rfl, rfl, rfl, rfl, rfl⟩

/-- C1: on any input accepted by `validate_inputs`, `output_time_axes`
returns a pair whose first axis is exactly the first `T - Ws` entries
of the time vector (length `T - Ws`) and whose second axis is exactly
the slice `time[Ws : T - Ws]` (length `T - 2*Ws`), where
`T = EEG_comp.shape[1]` and `Ws = round(wind * Fs)`. -/
theorem output_time_axes_correct (mi : ModelInputs)
    (h : validate_inputs mi = Except.ok ()) :
    ∃ Ws : ℕ, pyIntRound (mi.wind.mul mi.Fs) = Except.ok (Ws : ℤ) ∧
      ∃ tH2B tB2H : List PyFloat,
        output_time_axes mi = Except.ok (tH2B, tB2H) ∧
        tH2B = mi.time.data.take (timeDim mi - Ws) ∧
        tH2B.length = timeDim mi - Ws ∧
        tB2H = (mi.time.data.take (timeDim mi - Ws)).drop Ws ∧
        tB2H.length = timeDim mi - 2 * Ws := by
  obtain ⟨Ws, h1, h2, h3, h4, h5, h6⟩ := validate_ok_facts mi h
  refine ⟨Ws, h1, _, _, h6, rfl, ?_, rfl, ?_⟩
  · rw [List.length_take]; omega
  · rw [List.length_drop, List.length_take]; omega

/-- C8: on any input accepted by `validate_inputs`, the two axes
returned by `output_time_axes` satisfy `tB2H = tH2B[Ws:]`, and both are
strictly increasing, being contiguous slices of the strictly
increasing time vector. -/
theorem output_time_axes_nested_slices (mi : ModelInputs)
    (h : validate_inputs mi = Except.ok ()) :
    ∃ (Ws : ℕ) (tH2B tB2H : List PyFloat),
      pyIntRound (mi.wind.mul mi.Fs) = Except.ok (Ws : ℤ) ∧
      output_time_axes mi = Except.ok (tH2B, tB2H) ∧
      tB2H = tH2B.drop Ws ∧
      is_strictly_increasing tH2B = true ∧
      is_strictly_increasing tB2H = true := by
  obtain ⟨Ws, h1, h2, h3, h4, h5, h6⟩ := validate_ok_facts mi h
  exact ⟨Ws, _, _, h1, h6, rfl,
    is_strictly_increasing_take _ _ h5,
    is_strictly_increasing_drop _ _ (is_strictly_increasing_take _ _ h5)⟩

/-- C7: `get_complete_subjects` returns exactly the integers in
`13..98` outside the union of the three exclusion sets (no EEG:
`13..31`, 37, 66; no ECG/PPG: 17, 37, 66; no pupillometry: 17, 94),
in increasing order, each formatted as `sub-` plus the number
zero-padded to three digits. -/
theorem get_complete_subjects_spec :
    get_complete_subjects =
      ((List.range' 13 86).filter (fun n =>
          !(decide ((13 ≤ n ∧ n ≤ 31) ∨ n = 37 ∨ n = 66 ∨ n = 17 ∨ n = 94)))).map
        (fun n => "sub-" ++
          (if n < 10 then "00" else if n < 100 then "0" else "") ++ toString n) ∧
    List.Chain' (· < ·) valid_ids := by
  constructor
  · rfl
  · exact List.Chain'.imp (fun a b h => of_decide_eq_true h)
      (chainRelBool_chain' (fun a b => decide (a < b)) valid_ids (by decide))

/-- The value of `get_complete_subjects`, by evaluation. -/
theorem get_complete_subjects_eval :
    get_complete_subjects =
      ["sub-032", "sub-033", "sub-034", "sub-035", "sub-036", "sub-038",
       "sub-039", "sub-040", "sub-041", "sub-042", "sub-043", "sub-044",
       "sub-045", "sub-046", "sub-047", "sub-048", "sub-049", "sub-050",
       "sub-051", "sub-052", "sub-053", "sub-054", "sub-055", "sub-056",
       "sub-057", "sub-058", "sub-059", "sub-060", "sub-061", "sub-062",
       "sub-063", "sub-064", "sub-065", "sub-067", "sub-068", "sub-069",
       "sub-070", "sub-071", "sub-072", "sub-073", "sub-074", "sub-075",
       "sub-076", "sub-077", "sub-078", "sub-079", "sub-080", "sub-081",
       "sub-082", "sub-083", "sub-084", "sub-085", "sub-086", "sub-087",
       "sub-088", "sub-089", "sub-090", "sub-091", "sub-092", "sub-093",
       "sub-095", "sub-096", "sub-097", "sub-098"] := rfl

/-- C10: `get_complete_subjects` is a constant list of exactly 64
identifiers, strictly increasing, starting at `sub-032` and ending at
`sub-098`. -/
theorem get_complete_subjects_constant :
    get_complete_subjects.length = 64 ∧
    get_complete_subjects.head? = some "sub-032" ∧
    get_complete_subjects.getLast? = some "sub-098" ∧
    List.Chain' (· < ·) get_complete_subjects := by
  refine ⟨rfl, rfl, rfl, ?_⟩
  rw [get_complete_subjects_eval]
  simp only [List.chain'_cons, List.chain'_singleton, and_true]
  repeat' constructor
  all_goals (apply String.lt_iff_toList_lt.mpr; decide)

/-!  Concrete inputs for witnesses. -/

/-- A 1-D ndarray from its element list. -/
def mk1 (l : List PyFloat) : NDArray := ⟨[l.length], l, by simp⟩

/-- A valid input: one EEG channel, `T = 3`, `Fs = 1`, `wind = 1`
(so `Ws = 1` and `T > 2 * Ws`). -/
def exMI : ModelInputs :=
  ⟨⟨[1, 3], [PyFloat.finite 0, PyFloat.finite 0, PyFloat.finite 0], rfl⟩,
   mk1 [PyFloat.finite 1],
   mk1 [PyFloat.finite 0],
   mk1 [PyFloat.finite 0, PyFloat.finite 0, PyFloat.finite 0],
   mk1 [PyFloat.finite 0, PyFloat.finite 0, PyFloat.finite 0],
   PyFloat.finite 1,
   mk1 [PyFloat.finite 0, PyFloat.finite 1, PyFloat.finite 2],
   PyFloat.finite 1⟩

/-- Like `exMI` but with a constant (hence not strictly increasing)
time vector. -/
def exBadMono : ModelInputs :=
  ⟨⟨[1, 3], [PyFloat.finite 0, PyFloat.finite 0, PyFloat.finite 0], rfl⟩,
   mk1 [PyFloat.finite 1],
   mk1 [PyFloat.finite 0],
   mk1 [PyFloat.finite 0, PyFloat.finite 0, PyFloat.finite 0],
   mk1 [PyFloat.finite 0, PyFloat.finite 0, PyFloat.finite 0],
   PyFloat.finite 1,
   mk1 [PyFloat.finite 0, PyFloat.finite 0, PyFloat.finite 0],
   PyFloat.finite 1⟩

/-- Like `exMI` but with a NaN inter-beat interval. -/
def exBadNaN : ModelInputs :=
  ⟨⟨[1, 3], [PyFloat.finite 0, PyFloat.finite 0, PyFloat.finite 0], rfl⟩,
   mk1 [PyFloat.nan],
   mk1 [PyFloat.finite 0],
   mk1 [PyFloat.finite 0, PyFloat.finite 0, PyFloat.finite 0],
   mk1 [PyFloat.finite 0, PyFloat.finite 0, PyFloat.finite 0],
   PyFloat.finite 1,
   mk1 [PyFloat.finite 0, PyFloat.finite 1, PyFloat.finite 2],
   PyFloat.finite 1⟩

/-- Like `exMI` but with a `CSI` of length 2 instead of `T = 3`. -/
def exBadShape : ModelInputs :=
  ⟨⟨[1, 3], [PyFloat.finite 0, PyFloat.finite 0, PyFloat.finite 0], rfl⟩,
   mk1 [PyFloat.finite 1],
   mk1 [PyFloat.finite 0],
   mk1 [PyFloat.finite 0, PyFloat.finite 0],
   mk1 [PyFloat.finite 0, PyFloat.finite 0, PyFloat.finite 0],
   PyFloat.finite 1,
   mk1 [PyFloat.finite 0, PyFloat.finite 1, PyFloat.finite 2],
   PyFloat.finite 1⟩

/-- Like `exMI` but with a zero inter-beat interval. -/
def exBadIBI : ModelInputs :=
  ⟨⟨[1, 3], [PyFloat.finite 0, PyFloat.finite 0, PyFloat.finite 0], rfl⟩,
   mk1 [PyFloat.finite 0],
   mk1 [PyFloat.finite 0],
   mk1 [PyFloat.finite 0, PyFloat.finite 0, PyFloat.finite 0],
   mk1 [PyFloat.finite 0, PyFloat.finite 0, PyFloat.finite 0],
   PyFloat.finite 1,
   mk1 [PyFloat.finite 0, PyFloat.finite 1, PyFloat.finite 2],
   PyFloat.finite 1⟩

theorem exMI_arrays : arraysPass exMI := ⟨rfl, rfl, rfl, rfl, rfl, rfl⟩

theorem exMI_scalars : scalarsPass exMI := ⟨rfl, rfl⟩

theorem exMI_shapes : shapesPass exMI := ⟨rfl, ⟨rfl, rfl⟩, ⟨rfl, rfl⟩, ⟨rfl, rfl⟩, ⟨rfl, rfl, rfl⟩⟩

theorem exMI_mono : monoPass exMI := by
  constructor
  · norm_num [exMI, mk1, is_strictly_increasing, pyDiff, PyFloat.sub, PyFloat.lt,
      decide_eq_true_eq]
  · rfl

theorem exMI_ibi : ibiPositivePass exMI := rfl

theorem exMI_ws : pyIntRound (exMI.wind.mul exMI.Fs) = Except.ok 1 := by
  norm_num [exMI, PyFloat.mul, pyIntRound, roundHalfEven]

theorem exMI_valid : validate_inputs exMI = Except.ok () := by
  rw [validate_inputs_ok_iff]
  refine ⟨exMI_arrays, ?_⟩
  rw [validate_rest_ok_iff]
  exact ⟨(checkScalars_ok_iff _).mpr exMI_scalars, (checkShapes_ok_iff _).mpr exMI_shapes,
    (checkMono_ok_iff _).mpr exMI_mono, (checkIBIpos_ok_iff _).mpr exMI_ibi,
    (checkWindow_ok_iff _).mpr ⟨1, exMI_ws, by omega, by norm_num [timeDim, exMI]⟩⟩

theorem exBadMono_arrays : arraysPass exBadMono := ⟨rfl, rfl, rfl, rfl, rfl, rfl⟩

theorem exBadMono_shapes : shapesPass exBadMono :=
  ⟨rfl, ⟨rfl, rfl⟩, ⟨rfl, rfl⟩, ⟨rfl, rfl⟩, ⟨rfl, rfl, rfl⟩⟩

theorem exBadMono_time : is_strictly_increasing exBadMono.time.data = false := by
  norm_num [exBadMono, mk1, is_strictly_increasing, pyDiff, PyFloat.sub, PyFloat.lt]

theorem exBadNaN_ibi_bad : arrayBad exBadNaN.IBI :=
  Or.inr ⟨PyFloat.nan, by simp [exBadNaN, mk1], rfl⟩

theorem exBadShape_arrays : arraysPass exBadShape := ⟨rfl, rfl, rfl, rfl, rfl, rfl⟩

theorem exBadShape_bad :
    exBadShape.EEG_comp.ndim ≠ 2 ∨
    (exBadShape.CSI.ndim ≠ 1 ∨ exBadShape.CSI.shape.getD 0 0 ≠ timeDim exBadShape) ∨
    (exBadShape.CVI.ndim ≠ 1 ∨ exBadShape.CVI.shape.getD 0 0 ≠ timeDim exBadShape) ∨
    (exBadShape.time.ndim ≠ 1 ∨ exBadShape.time.shape.getD 0 0 ≠ timeDim exBadShape) ∨
    (exBadShape.IBI.ndim ≠ 1 ∨ exBadShape.t_IBI.ndim ≠ 1 ∨
      exBadShape.IBI.shape.getD 0 0 ≠ exBadShape.t_IBI.shape.getD 0 0) :=
  Or.inr (Or.inl (Or.inr (by decide)))

theorem exBadIBI_arrays : arraysPass exBadIBI := ⟨rfl, rfl, rfl, rfl, rfl, rfl⟩

theorem exBadIBI_scalars : scalarsPass exBadIBI := ⟨rfl, rfl⟩

theorem exBadIBI_shapes : shapesPass exBadIBI :=
  ⟨rfl, ⟨rfl, rfl⟩, ⟨rfl, rfl⟩, ⟨rfl, rfl⟩, ⟨rfl, rfl, rfl⟩⟩

theorem exBadIBI_mono : monoPass exBadIBI := by
  constructor
  · norm_num [exBadIBI, mk1, is_strictly_increasing, pyDiff, PyFloat.sub, PyFloat.lt,
      decide_eq_true_eq]
  · rfl

theorem exBadIBI_nonpos : exBadIBI.IBI.data.any (fun v => v.le (PyFloat.finite 0)) = true := rfl

/-!  Witnesses. -/

/-- Witness for C1 at the concrete valid input `exMI`. -/
theorem output_time_axes_correct_witness :
    validate_inputs exMI = Except.ok () ∧
    (∃ Ws : ℕ, pyIntRound (exMI.wind.mul exMI.Fs) = Except.ok (Ws : ℤ) ∧
      ∃ tH2B tB2H : List PyFloat,
        output_time_axes exMI = Except.ok (tH2B, tB2H) ∧
        tH2B = exMI.time.data.take (timeDim exMI - Ws) ∧
        tH2B.length = timeDim exMI - Ws ∧
        tB2H = (exMI.time.data.take (timeDim exMI - Ws)).drop Ws ∧
        tB2H.length = timeDim exMI - 2 * Ws) :=
  ⟨exMI_valid, output_time_axes_correct exMI exMI_valid⟩

/-- Witness for C8 at the concrete valid input `exMI`. -/
theorem output_time_axes_nested_slices_witness :
    validate_inputs exMI = Except.ok () ∧
    (∃ (Ws : ℕ) (tH2B tB2H : List PyFloat),
      pyIntRound (exMI.wind.mul exMI.Fs) = Except.ok (Ws : ℤ) ∧
      output_time_axes exMI = Except.ok (tH2B, tB2H) ∧
      tB2H = tH2B.drop Ws ∧
      is_strictly_increasing tH2B = true ∧
      is_strictly_increasing tB2H = true) :=
  ⟨exMI_valid, output_time_axes_nested_slices exMI exMI_valid⟩

/-- Witness for C2 at the concrete input `exMI` (where `Ws = 1`). -/
theorem validate_inputs_window_threshold_witness :
    (arraysPass exMI ∧ scalarsPass exMI ∧ shapesPass exMI ∧ monoPass exMI ∧
      ibiPositivePass exMI ∧ pyIntRound (exMI.wind.mul exMI.Fs) = Except.ok 1) ∧
    (((1 : ℤ) < 1 ∨ (timeDim exMI : ℤ) ≤ 2 * 1) →
        ∃ msg, validate_inputs exMI = Except.error (PyError.inputValidation msg)) ∧
    (¬((1 : ℤ) < 1 ∨ (timeDim exMI : ℤ) ≤ 2 * 1) → validate_inputs exMI = Except.ok ()) :=
  ⟨⟨exMI_arrays, exMI_scalars, exMI_shapes, exMI_mono, exMI_ibi, exMI_ws⟩,
   validate_inputs_window_threshold exMI 1 exMI_arrays exMI_scalars exMI_shapes
     exMI_mono exMI_ibi exMI_ws⟩

/-- Witness for C3 at the concrete input `exBadMono` (constant time
vector). -/
theorem validate_inputs_mono_error_witness :
    (arraysPass exBadMono ∧ shapesPass exBadMono ∧
      (is_strictly_increasing exBadMono.time.data = false ∨
       is_strictly_increasing exBadMono.t_IBI.data = false)) ∧
    ∃ msg, validate_inputs exBadMono = Except.error (PyError.inputValidation msg) :=
  ⟨⟨exBadMono_arrays, exBadMono_shapes, Or.inl exBadMono_time⟩,
   validate_inputs_mono_error exBadMono exBadMono_arrays exBadMono_shapes
     (Or.inl exBadMono_time)⟩

/-- Witness for C4 at the concrete input `exBadNaN` (NaN in `IBI`). -/
theorem validate_inputs_rejects_bad_arrays_witness :
    (arrayBad exBadNaN.EEG_comp ∨ arrayBad exBadNaN.IBI ∨ arrayBad exBadNaN.t_IBI ∨
      arrayBad exBadNaN.CSI ∨ arrayBad exBadNaN.CVI ∨ arrayBad exBadNaN.time) ∧
    ∃ msg, validate_inputs exBadNaN = Except.error (PyError.inputValidation msg) :=
  ⟨Or.inr (Or.inl exBadNaN_ibi_bad),
   validate_inputs_rejects_bad_arrays exBadNaN (Or.inr (Or.inl exBadNaN_ibi_bad))⟩

/-- Witness for C5 at the concrete input `exBadShape` (a `CSI` of the
wrong length). -/
theorem validate_inputs_shape_error_witness :
    (arraysPass exBadShape ∧
      PyFloat.lt (PyFloat.finite 0) exBadShape.Fs = true ∧
      PyFloat.lt (PyFloat.finite 0) exBadShape.wind = true ∧
      (exBadShape.EEG_comp.ndim ≠ 2 ∨
       (exBadShape.CSI.ndim ≠ 1 ∨ exBadShape.CSI.shape.getD 0 0 ≠ timeDim exBadShape) ∨
       (exBadShape.CVI.ndim ≠ 1 ∨ exBadShape.CVI.shape.getD 0 0 ≠ timeDim exBadShape) ∨
       (exBadShape.time.ndim ≠ 1 ∨ exBadShape.time.shape.getD 0 0 ≠ timeDim exBadShape) ∨
       (exBadShape.IBI.ndim ≠ 1 ∨ exBadShape.t_IBI.ndim ≠ 1 ∨
         exBadShape.IBI.shape.getD 0 0 ≠ exBadShape.t_IBI.shape.getD 0 0))) ∧
    ∃ msg, validate_inputs exBadShape = Except.error (PyError.inputValidation msg) :=
  ⟨⟨exBadShape_arrays, rfl, rfl, exBadShape_bad⟩,
   validate_inputs_shape_error exBadShape exBadShape_arrays rfl rfl exBadShape_bad⟩

/-- Witness for C6 at the concrete input `exBadIBI` (a zero inter-beat
interval). -/
theorem validate_inputs_ibi_error_witness :
    (arraysPass exBadIBI ∧ scalarsPass exBadIBI ∧ shapesPass exBadIBI ∧
      monoPass exBadIBI ∧
      exBadIBI.IBI.data.any (fun v => v.le (PyFloat.finite 0)) = true) ∧
    validate_inputs exBadIBI = Except.error
      (PyError.inputValidation "IBI must be strictly positive (seconds)") :=
  ⟨⟨exBadIBI_arrays, exBadIBI_scalars, exBadIBI_shapes, exBadIBI_mono, exBadIBI_nonpos⟩,
   validate_inputs_ibi_error exBadIBI exBadIBI_arrays exBadIBI_scalars exBadIBI_shapes
     exBadIBI_mono exBadIBI_nonpos⟩
